import Mathlib

/-!
Shallow embedding of the flood damage assessment pipeline (src/app.py).

Rasters are modelled as lists of optional rational cell values: `none` is a
masked (undefined) cell, `some v` a defined cell with value `v`.  The Earth
Engine image operations used by the source (`subtract`, `lt`, `selfMask`,
`multiply`, `pixelArea`, `reduceRegion` with MAX/SUM reducers) become list
operations; vector features carry the set of raster cell indices their
geometry covers plus their centroid coordinates.
-/

/-- A single-band raster over the AOI grid: one optional value per cell.
`none` models an Earth Engine masked cell. -/
abbrev Raster := List (Option ℚ)

/-- Pointwise lift of a binary operation to optional cell values: defined only
where both operands are defined (Earth Engine semantics of `subtract` and
`multiply`). -/
def opt2 (f : ℚ → ℚ → ℚ) : Option ℚ → Option ℚ → Option ℚ
  | some u, some v => some (f u v)
  | _, _ => none

/-- `pre_img.subtract(post_img)` (src/app.py line 57): per-cell difference,
masked where either input is masked. -/
def Raster.subtract (a b : Raster) : Raster :=
  List.zipWith (opt2 (fun u v => u - v)) a b

/-- `img.multiply(other)` (src/app.py line 130): per-cell product. -/
def Raster.multiply (a b : Raster) : Raster :=
  List.zipWith (opt2 (fun u v => u * v)) a b

/-- `img.lt(t)` (src/app.py line 58): per defined cell, `1` if the value is
strictly below `t`, else `0`; masked cells stay masked. -/
def Raster.ltImg (a : Raster) (t : ℚ) : Raster :=
  a.map (fun x => x.map (fun u => if u < t then (1 : ℚ) else 0))

/-- `img.selfMask()` (src/app.py line 58): mask out the zero-valued cells,
keep the nonzero ones. -/
def Raster.selfMask (a : Raster) : Raster :=
  a.map (fun x => x.bind (fun u => if u = 0 then none else some u))

/-- `ee.Image.pixelArea()` sampled on the mask grid: cell `i` has area
`area i` (square meters); every cell is defined. -/
def pixelAreaImg (n : ℕ) (area : ℕ → ℚ) : Raster :=
  (List.range n).map (fun i => some (area i))

/-- `flood_mask = vv_diff.lt(threshold).selfMask()` (src/app.py lines 57-58,
with the threshold left as a parameter; the script instantiates it at
`-1.5`). The `rename` call only changes the band label and is omitted. -/
def flood_mask (pre post : Raster) (t : ℚ) : Raster :=
  Raster.selfMask (Raster.ltImg (Raster.subtract pre post) t)

/-- A vector feature: the raster cells its geometry footprint covers, and its
centroid coordinates (src/app.py lines 94-96 read the centroid). -/
structure Feature where
  geom : List ℕ
  lon : ℚ
  lat : ℚ
  deriving DecidableEq

/-- The defined mask values over a geometry footprint: one entry per covered
cell that is inside the raster and unmasked. -/
def definedVals (mask : Raster) (geom : List ℕ) : List ℚ :=
  geom.filterMap (fun i => (mask[i]?).bind id)

/-- `flood_mask.reduceRegion(reducer=ee.Reducer.max(), geometry=f.geometry(), ...)
.get('flooded')` (src/app.py lines 83-88): maximum of the defined mask cells
under the geometry, absent when no defined cell is covered. -/
def zonalMax (mask : Raster) (geom : List ℕ) : Option ℚ :=
  (definedVals mask geom).max?

/-- `reduceRegion(reducer=ee.Reducer.sum(), geometry=aoi, ...).get('flooded')`
(src/app.py lines 131-136): sum of the defined cell values inside the region,
absent when no defined cell lies inside it. -/
def zonalSum (mask : Raster) (geom : List ℕ) : Option ℚ :=
  match definedVals mask geom with
  | [] => none
  | v :: vs => some ((v :: vs).sum)

/-- One row of the detail table (src/app.py lines 100-107). -/
structure Row where
  type : String
  lat : ℚ
  lon : ℚ
  loss_inr : ℤ
  deriving DecidableEq

/-- `mark_flooded_assets` (src/app.py lines 77-109), with the per-geometry
zonal reduction abstracted as `z` (the pipeline instantiates it with
`zonalMax mask`): empty collections short-circuit; otherwise features whose
reduction equals `1` exactly are kept, counted, and turned into detail rows
carrying the centroid and the flat unit cost. -/
def mark_flooded_assets (z : List ℕ → Option ℚ) (fc : List Feature)
    (name : String) (unit_cost : ℤ) : List Feature × ℕ × List Row :=
  if fc.length = 0 then (fc, 0, [])
  else
    let flooded_only := fc.filter (fun f => decide (z f.geom = some 1))
    (flooded_only, flooded_only.length,
      flooded_only.map (fun f =>
        { type := name, lat := f.lat, lon := f.lon, loss_inr := unit_cost }))

/-- `fc.filterBounds(aoi)` (src/app.py lines 71, 74): keep the features whose
geometry intersects the AOI cells. -/
def filterBounds (aoiCells : List ℕ) (fc : List Feature) : List Feature :=
  fc.filter (fun f => f.geom.any (fun i => aoiCells.contains i))

/-- `hospitals = ...filterBounds(aoi).limit(10)` (src/app.py line 71). -/
def hospitals (wdpa : List Feature) (aoiCells : List ℕ) : List Feature :=
  (filterBounds aoiCells wdpa).take 10

/-- `roads = ...filterBounds(aoi).limit(50)` (src/app.py line 74). -/
def roads (tiger : List Feature) (aoiCells : List ℕ) : List Feature :=
  (filterBounds aoiCells tiger).take 50

/-- `building_cost = 500000` (src/app.py line 112). -/
def building_cost : ℤ := 500000

/-- `road_cost = 1000000` (src/app.py line 113). -/
def road_cost : ℤ := 1000000

/-- `hospital_cost = 5000000` (src/app.py line 114). -/
def hospital_cost : ℤ := 5000000

/-- `flood_area` computation (src/app.py lines 130-141).  The handle
`reduceRegion(...).get('flooded')` is a lazy ee.ComputedObject and is never
Python `None`, so the `if flood_area is not None:` guard on line 138 always
takes its first branch and the `else: flood_area = 0` branch on line 141 is
dead code.  The script then evaluates `flood_area.getInfo() / 1e6`; when the
materialized reduction is absent (`getInfo()` returns `None`) that division
raises a TypeError and the run aborts.  Result: `some (s / 1e6)` when the SUM
reduction materializes to `s`, and `none` — modelling the TypeError abort,
not a `0.0` value — when it is absent. -/
def flood_area (mask : Raster) (area : ℕ → ℚ) (aoiCells : List ℕ) : Option ℚ :=
  match zonalSum (Raster.multiply mask (pixelAreaImg mask.length area)) aoiCells with
  | some s => some (s / 1000000)
  | none => none

/-- The report assembled by the script (counts, merged detail table, total
loss, flooded area; src/app.py lines 116-148).  `area_km2 = none` records the
run aborting with the TypeError of line 139 on an absent SUM reduction; the
remaining fields are the quantities lines 116-122 have computed by then. -/
structure ImpactReport where
  area_km2 : Option ℚ
  b_count : ℕ
  r_count : ℕ
  h_count : ℕ
  table : List Row
  total_loss : ℤ
  deriving DecidableEq

/-- The whole pipeline run (src/app.py lines 53-148): build the change mask,
classify buildings, the road collection (TIGER, limited to 50) and the
hospital collection (WDPA, limited to 10), merge the detail tables, total the
losses (`0` when the merged table is empty) and compute the flooded area. -/
def run_pipeline (pre post : Raster) (threshold : ℚ) (area : ℕ → ℚ)
    (aoiCells : List ℕ) (buildings tiger wdpa : List Feature) : ImpactReport :=
  let mask := flood_mask pre post threshold
  let z := zonalMax mask
  let mb := mark_flooded_assets z buildings "Building" building_cost
  let mr := mark_flooded_assets z (roads tiger aoiCells) "Road" road_cost
  let mh := mark_flooded_assets z (hospitals wdpa aoiCells) "Hospital" hospital_cost
  let all_df := mb.2.2 ++ mr.2.2 ++ mh.2.2
  { area_km2 := flood_area mask area aoiCells
    b_count := mb.2.1
    r_count := mr.2.1
    h_count := mh.2.1
    table := all_df
    total_loss := if all_df.isEmpty then 0 else (all_df.map (fun r => r.loss_inr)).sum }

/-! ### Helper lemmas about the change mask -/

/-- Cell access in the per-cell difference when both inputs are defined. -/
theorem subtract_getElem (pre post : Raster) (i : ℕ) (dp dq : ℚ)
    (hp : pre[i]? = some (some dp)) (hq : post[i]? = some (some dq)) :
    (Raster.subtract pre post)[i]? = some (some (dp - dq)) := by
  unfold Raster.subtract
  rw [List.getElem?_zipWith', hp, hq]
  rfl

/-- The threshold-and-self-mask composition acts per cell: a defined
difference `d` becomes `some 1` when `d < t` and is masked otherwise. -/
theorem flood_mask_eq_map (pre post : Raster) (t : ℚ) :
    flood_mask pre post t =
      (Raster.subtract pre post).map
        (fun x => x.bind (fun d => if d < t then some (1 : ℚ) else none)) := by
  unfold flood_mask Raster.selfMask Raster.ltImg
  rw [List.map_map]
  apply List.map_congr_left
  intro x _
  cases x with
  | none => rfl
  | some u =>
    by_cases h : u < t
    · simp [Function.comp, h]
    · simp [Function.comp, h]

/-- Cell access in the change mask when both observations are defined. -/
theorem flood_mask_getElem (pre post : Raster) (t : ℚ) (i : ℕ) (dp dq : ℚ)
    (hp : pre[i]? = some (some dp)) (hq : post[i]? = some (some dq)) :
    (flood_mask pre post t)[i]? = some (if dp - dq < t then some (1 : ℚ) else none) := by
  rw [flood_mask_eq_map, List.getElem?_map, subtract_getElem pre post i dp dq hp hq]
  rfl

/-- Every defined cell of the change mask holds exactly `1`. -/
theorem flood_mask_defined_eq_one (pre post : Raster) (t : ℚ) (j : ℕ) (v : ℚ)
    (h : (flood_mask pre post t)[j]? = some (some v)) : v = 1 := by
  rw [flood_mask_eq_map, List.getElem?_map] at h
  cases hx : (Raster.subtract pre post)[j]? with
  | none => rw [hx] at h; simp at h
  | some x =>
    rw [hx] at h
    cases x with
    | none => simp at h
    | some d =>
      by_cases hd : d < t
      · simp [hd] at h
        exact h.symm
      · simp [hd] at h

example : flood_mask [some (-10)] [some (-8)] (-3/2) = [some 1] := by
  norm_num [flood_mask, Raster.selfMask, Raster.ltImg, Raster.subtract, opt2]
example : flood_mask [some (-10)] [some (-9)] (-3/2) = [none] := by
  norm_num [flood_mask, Raster.selfMask, Raster.ltImg, Raster.subtract, opt2]
example : zonalMax [some 1, none] [0, 1] = some 1 := rfl
example : zonalMax [none] [0, 5] = none := rfl
example : flood_area [some 1] (fun _ => 10000) [0] = some (1/100) := by
  norm_num [flood_area, zonalSum, definedVals, Raster.multiply, pixelAreaImg,
    List.range_succ, opt2, List.filterMap_cons]
example : flood_area [] (fun _ => 10000) [0] = none := rfl

/-! ### Claim theorems -/

/-- C1: for observations defined at a cell, the change mask flags the cell
with value `1` iff the difference `d = pre - post` satisfies `d < t`; any
other cell is left undefined (self-masked), and no defined mask cell ever
holds a value other than `1` (in particular never `0`). -/
theorem flood_mask_flags_iff (pre post : Raster) (t : ℚ) (i : ℕ) (dp dq : ℚ)
    (hp : pre[i]? = some (some dp)) (hq : post[i]? = some (some dq)) :
    ((flood_mask pre post t)[i]? = some (some 1) ↔ dp - dq < t) ∧
    (¬ dp - dq < t → (flood_mask pre post t)[i]? = some none) ∧
    (∀ (j : ℕ) (v : ℚ), (flood_mask pre post t)[j]? = some (some v) → v = 1) := by
  refine ⟨?_, ?_, fun j v h => flood_mask_defined_eq_one pre post t j v h⟩
  · rw [flood_mask_getElem pre post t i dp dq hp hq]
    by_cases hd : dp - dq < t
    · simp [hd]
    · simp [hd]
  · intro hd
    rw [flood_mask_getElem pre post t i dp dq hp hq]
    simp [hd]

/-- Witness for C1 at the spec's literal scenarios: `pre = -10.0`,
`post = -8.0`, `t = -1.5` is flagged `1`; `pre = -10.0`, `post = -9.0` is
left undefined. -/
theorem flood_mask_flags_iff_witness :
    (flood_mask [some (-10)] [some (-8)] (-3/2))[0]? = some (some 1) ∧
    (flood_mask [some (-10)] [some (-9)] (-3/2))[0]? = some none := by
  constructor
  · exact ((flood_mask_flags_iff [some (-10)] [some (-8)] (-3/2) 0 (-10) (-8)
      rfl rfl).1).mpr (by norm_num)
  · exact (flood_mask_flags_iff [some (-10)] [some (-9)] (-3/2) 0 (-10) (-9)
      rfl rfl).2.1 (by norm_num)

/-- Monotonicity of the per-cell mask action in the threshold. -/
theorem maskCell_mono (t1 t2 : ℚ) (h : t2 ≤ t1) (x : Option ℚ)
    (hx : x.bind (fun d => if d < t2 then some (1 : ℚ) else none) = some 1) :
    x.bind (fun d => if d < t1 then some (1 : ℚ) else none) = some 1 := by
  cases x with
  | none => simp at hx
  | some d =>
    by_cases hd : d < t2
    · have hd1 : d < t1 := lt_of_lt_of_le hd h
      simp [hd1]
    · simp [hd] at hx

/-- C6: lowering the threshold never flags new cells: with `t2 ≤ t1`, every
cell flagged at `t2` is flagged at `t1`, and the number of flagged cells at
`t2` is at most the number at `t1`. -/
theorem flood_mask_threshold_mono (pre post : Raster) (t1 t2 : ℚ) (h : t2 ≤ t1) :
    (∀ i : ℕ, (flood_mask pre post t2)[i]? = some (some 1) →
      (flood_mask pre post t1)[i]? = some (some 1)) ∧
    (flood_mask pre post t2).countP (fun x => decide (x = some (1 : ℚ))) ≤
      (flood_mask pre post t1).countP (fun x => decide (x = some (1 : ℚ))) := by
  constructor
  · intro i hi
    rw [flood_mask_eq_map, List.getElem?_map] at hi ⊢
    cases hx : (Raster.subtract pre post)[i]? with
    | none => rw [hx] at hi; simp at hi
    | some x =>
      have hi2 : x.bind (fun d => if d < t2 then some (1 : ℚ) else none) = some 1 := by
        rw [hx] at hi
        simpa using hi
      simpa using maskCell_mono t1 t2 h x hi2
  · rw [flood_mask_eq_map pre post t2, flood_mask_eq_map pre post t1,
      List.countP_map, List.countP_map]
    apply List.countP_mono_left
    intro x _ hx
    simp only [Function.comp, decide_eq_true_eq] at hx ⊢
    exact maskCell_mono t1 t2 h x hx

/-- Witness for C6: the cell flagged at threshold `-1.5` is still flagged at
the larger threshold `-1`. -/
theorem flood_mask_threshold_mono_witness :
    (flood_mask [some (-10)] [some (-8)] (-1))[0]? = some (some 1) := by
  refine (flood_mask_threshold_mono [some (-10)] [some (-8)] (-1) (-3/2)
    (by norm_num)).1 0 ?_
  rw [flood_mask_getElem [some (-10)] [some (-8)] (-3/2) 0 (-10) (-8) rfl rfl]
  norm_num

/-- Folding `max` over a list of ones starting from one gives one. -/
theorem foldl_max_all_one :
    ∀ (as : List ℚ) (a : ℚ), a = 1 → (∀ v ∈ as, v = (1 : ℚ)) →
      as.foldl max a = 1
  | [], a, ha, _ => by simpa using ha
  | b :: bs, a, ha, h => by
    have hb : b = 1 := h b (by simp)
    have hm : max a b = 1 := by rw [ha, hb]; simp
    exact foldl_max_all_one bs (max a b) hm (fun v hv => h v (by simp [hv]))

/-- Every defined value the change mask exposes over a geometry is `1`. -/
theorem definedVals_flood_mask_eq_one (pre post : Raster) (t : ℚ) (geom : List ℕ) :
    ∀ v ∈ definedVals (flood_mask pre post t) geom, v = (1 : ℚ) := by
  intro v hv
  rw [definedVals, List.mem_filterMap] at hv
  obtain ⟨i, _, hi⟩ := hv
  cases hm : (flood_mask pre post t)[i]? with
  | none => rw [hm] at hi; simp at hi
  | some x =>
    cases x with
    | none => rw [hm] at hi; simp at hi
    | some w =>
      rw [hm] at hi
      simp at hi
      subst hi
      exact flood_mask_defined_eq_one pre post t i w hm

/-- C9: over any geometry, the MAX zonal reduction of the self-masked change
mask is either exactly `some 1` or absent, never `0` (or any other value):
the equals-1 filter is the sole discriminator, and unflagged and undetermined
geometries are indistinguishable in the reduction result. -/
theorem zonalMax_flood_mask_one_or_none (pre post : Raster) (t : ℚ) (geom : List ℕ) :
    zonalMax (flood_mask pre post t) geom = some 1 ∨
    zonalMax (flood_mask pre post t) geom = none := by
  unfold zonalMax
  cases hd : definedVals (flood_mask pre post t) geom with
  | nil => exact Or.inr rfl
  | cons a as =>
    left
    rw [List.max?_cons']
    have hall := definedVals_flood_mask_eq_one pre post t geom
    rw [hd] at hall
    have ha : a = 1 := hall a (by simp)
    exact congrArg some
      (foldl_max_all_one as a ha (fun v hv => hall v (by simp [hv])))

/-- C2: for a non-empty collection, a feature lands in the flagged output iff
it is in the input and the MAX zonal reduction over its geometry equals `1`
exactly; an absent reduction result excludes the feature. -/
theorem mark_flooded_assets_flagged_iff (mask : Raster) (fc : List Feature)
    (name : String) (c : ℤ) (hne : fc ≠ []) (f : Feature) :
    (f ∈ (mark_flooded_assets (zonalMax mask) fc name c).1 ↔
      f ∈ fc ∧ zonalMax mask f.geom = some 1) ∧
    (zonalMax mask f.geom = none →
      f ∉ (mark_flooded_assets (zonalMax mask) fc name c).1) := by
  have hlen : ¬ fc.length = 0 := by simpa [List.length_eq_zero] using hne
  have hiff : f ∈ (mark_flooded_assets (zonalMax mask) fc name c).1 ↔
      f ∈ fc ∧ zonalMax mask f.geom = some 1 := by
    unfold mark_flooded_assets
    rw [if_neg hlen]
    simp [List.mem_filter]
  refine ⟨hiff, fun hz hmem => ?_⟩
  have h1 := (hiff.mp hmem).2
  rw [hz] at h1
  simp at h1

/-- Witness for C2: a single feature over a flagged cell is flagged. -/
theorem mark_flooded_assets_flagged_iff_witness :
    (⟨[0], 0, 0⟩ : Feature) ∈
      (mark_flooded_assets (zonalMax [some 1]) [⟨[0], 0, 0⟩] "Building" 500000).1 :=
  ((mark_flooded_assets_flagged_iff [some 1] [⟨[0], 0, 0⟩] "Building" 500000
    (by simp) ⟨[0], 0, 0⟩).1).mpr ⟨by simp, rfl⟩

/-- C5: an empty asset collection classifies to an empty flagged set, count
`0` and an empty table, and the result does not depend on the zonal reduction
function at all (no reduction is consulted). -/
theorem mark_flooded_assets_empty (z w : List ℕ → Option ℚ) (name : String) (c : ℤ) :
    mark_flooded_assets z [] name c = ([], 0, []) ∧
    mark_flooded_assets z [] name c = mark_flooded_assets w [] name c :=
  ⟨rfl, rfl⟩

/-- The flagged count never exceeds the size of the input collection. -/
theorem mark_flooded_assets_count_le (z : List ℕ → Option ℚ) (fc : List Feature)
    (name : String) (c : ℤ) :
    (mark_flooded_assets z fc name c).2.1 ≤ fc.length := by
  unfold mark_flooded_assets
  by_cases h : fc.length = 0
  · rw [if_pos h]
    simp
  · rw [if_neg h]
    exact fc.length_filter_le _

/-- C10: the hospital collection submitted to classification has at most 10
features and the road collection at most 50, whatever intersects the AOI; the
reported affected counts obey the same bounds. -/
theorem limited_collections_bound (pre post : Raster) (t : ℚ) (area : ℕ → ℚ)
    (aoiCells : List ℕ) (b tg wd : List Feature) :
    (hospitals wd aoiCells).length ≤ 10 ∧
    (roads tg aoiCells).length ≤ 50 ∧
    (run_pipeline pre post t area aoiCells b tg wd).h_count ≤ 10 ∧
    (run_pipeline pre post t area aoiCells b tg wd).r_count ≤ 50 := by
  refine ⟨List.length_take_le _ _, List.length_take_le _ _, ?_, ?_⟩
  · exact le_trans (mark_flooded_assets_count_le _ _ _ _) (List.length_take_le _ _)
  · exact le_trans (mark_flooded_assets_count_le _ _ _ _) (List.length_take_le _ _)

/-- C7: the flooded-area figure of the report is identical across runs that
differ only in the vector asset layers (buildings, roads source, hospitals
source): the area computation never reads the asset collections. -/
theorem flood_area_independent_of_assets (pre post : Raster) (t : ℚ) (area : ℕ → ℚ)
    (aoiCells : List ℕ) (b tg wd b2 tg2 wd2 : List Feature) :
    (run_pipeline pre post t area aoiCells b tg wd).area_km2 =
    (run_pipeline pre post t area aoiCells b2 tg2 wd2).area_km2 := rfl

/-- The flagged count equals the number of produced detail rows. -/
theorem mark_flooded_assets_count_eq_rows (z : List ℕ → Option ℚ) (fc : List Feature)
    (name : String) (c : ℤ) :
    (mark_flooded_assets z fc name c).2.1 =
      (mark_flooded_assets z fc name c).2.2.length := by
  unfold mark_flooded_assets
  by_cases h : fc.length = 0
  · rw [if_pos h]
    rfl
  · rw [if_neg h]
    simp

/-- Every produced detail row carries the collection's type name. -/
theorem mark_flooded_assets_rows_type (z : List ℕ → Option ℚ) (fc : List Feature)
    (name : String) (c : ℤ) :
    ∀ r ∈ (mark_flooded_assets z fc name c).2.2, r.type = name := by
  unfold mark_flooded_assets
  by_cases h : fc.length = 0
  · rw [if_pos h]
    intro r hr
    simp at hr
  · rw [if_neg h]
    intro r hr
    simp only [List.mem_map] at hr
    obtain ⟨f, _, hf⟩ := hr
    rw [← hf]

/-- Filtering on a type name keeps a table whose rows all carry that name. -/
theorem filter_beq_of_all (name : String) (l : List Row)
    (h : ∀ r ∈ l, r.type = name) : l.filter (fun r => r.type == name) = l := by
  apply List.filter_eq_self.mpr
  intro a ha
  simpa using h a ha

/-- Filtering on a type name drops a table none of whose rows carry it. -/
theorem filter_beq_of_none (name : String) (l : List Row)
    (h : ∀ r ∈ l, r.type ≠ name) : l.filter (fun r => r.type == name) = [] := by
  apply List.filter_eq_nil_iff.mpr
  intro a ha
  simpa using h a ha

/-- The merged total loss expression always equals the column sum. -/
theorem total_loss_eq_sum (l : List Row) :
    (if l.isEmpty then (0 : ℤ) else (l.map (fun r => r.loss_inr)).sum) =
    (l.map (fun r => r.loss_inr)).sum := by
  cases l with
  | nil => simp
  | cons a l => simp

/-- C3: for every pipeline run, each asset type's affected count equals the
number of detail rows of that type, the per-type counts sum to the merged
table's row count, the total loss equals the sum of the loss column, and an
empty merged table forces a total loss of `0` (the table itself is always
present). -/
theorem run_pipeline_report_invariants (pre post : Raster) (t : ℚ) (area : ℕ → ℚ)
    (aoiCells : List ℕ) (b tg wd : List Feature) (rep : ImpactReport)
    (hrep : rep = run_pipeline pre post t area aoiCells b tg wd) :
    rep.b_count = (rep.table.filter (fun r => r.type == "Building")).length ∧
    rep.r_count = (rep.table.filter (fun r => r.type == "Road")).length ∧
    rep.h_count = (rep.table.filter (fun r => r.type == "Hospital")).length ∧
    rep.b_count + rep.r_count + rep.h_count = rep.table.length ∧
    rep.total_loss = (rep.table.map (fun r => r.loss_inr)).sum ∧
    (rep.table = [] → rep.total_loss = 0) := by
  subst hrep
  simp only [run_pipeline]
  have hbt := mark_flooded_assets_rows_type (zonalMax (flood_mask pre post t))
    b "Building" building_cost
  have hrt := mark_flooded_assets_rows_type (zonalMax (flood_mask pre post t))
    (roads tg aoiCells) "Road" road_cost
  have hht := mark_flooded_assets_rows_type (zonalMax (flood_mask pre post t))
    (hospitals wd aoiCells) "Hospital" hospital_cost
  refine ⟨?_, ?_, ?_, ?_, ?_, ?_⟩
  · rw [List.filter_append, List.filter_append,
      filter_beq_of_all "Building" _ hbt,
      filter_beq_of_none "Building" _ (fun r hr => by rw [hrt r hr]; simp),
      filter_beq_of_none "Building" _ (fun r hr => by rw [hht r hr]; simp)]
    simpa using mark_flooded_assets_count_eq_rows _ b "Building" building_cost
  · rw [List.filter_append, List.filter_append,
      filter_beq_of_all "Road" _ hrt,
      filter_beq_of_none "Road" _ (fun r hr => by rw [hbt r hr]; simp),
      filter_beq_of_none "Road" _ (fun r hr => by rw [hht r hr]; simp)]
    simpa using mark_flooded_assets_count_eq_rows _ (roads tg aoiCells) "Road" road_cost
  · rw [List.filter_append, List.filter_append,
      filter_beq_of_all "Hospital" _ hht,
      filter_beq_of_none "Hospital" _ (fun r hr => by rw [hbt r hr]; simp),
      filter_beq_of_none "Hospital" _ (fun r hr => by rw [hrt r hr]; simp)]
    simpa using mark_flooded_assets_count_eq_rows _ (hospitals wd aoiCells)
      "Hospital" hospital_cost
  · rw [mark_flooded_assets_count_eq_rows _ b "Building" building_cost,
      mark_flooded_assets_count_eq_rows _ (roads tg aoiCells) "Road" road_cost,
      mark_flooded_assets_count_eq_rows _ (hospitals wd aoiCells) "Hospital" hospital_cost]
    simp [List.length_append, Nat.add_assoc]
  · exact total_loss_eq_sum _
  · intro h
    simp [h]

/-- Witness for C3 at a concrete one-building run. -/
theorem run_pipeline_report_invariants_witness :
    (run_pipeline [some (-10)] [some (-8)] (-3/2) (fun _ => 10000) [0]
      [⟨[0], 0, 0⟩] [] []).total_loss =
    (((run_pipeline [some (-10)] [some (-8)] (-3/2) (fun _ => 10000) [0]
      [⟨[0], 0, 0⟩] [] []).table).map (fun r => r.loss_inr)).sum :=
  (run_pipeline_report_invariants [some (-10)] [some (-8)] (-3/2) (fun _ => 10000)
    [0] [⟨[0], 0, 0⟩] [] [] _ rfl).2.2.2.2.1

/-- Per-cell value of `flood_mask.multiply(ee.Image.pixelArea())`: a defined
mask cell `v` contributes `v * area i`, anything else is absent. -/
theorem multiply_pixelArea_cell (mask : Raster) (area : ℕ → ℚ) (i : ℕ) :
    ((Raster.multiply mask (pixelAreaImg mask.length area))[i]?).bind id =
      match mask[i]? with
      | some (some v) => some (v * area i)
      | some none => none
      | none => none := by
  unfold Raster.multiply pixelAreaImg
  rw [List.getElem?_zipWith', List.getElem?_map]
  by_cases h : i < mask.length
  · have hr : (List.range mask.length)[i]? = some i := by
      simp [List.getElem?_range, h]
    obtain ⟨x, hx⟩ : ∃ x, mask[i]? = some x :=
      ⟨mask[i], by simp [List.getElem?_eq_getElem h]⟩
    rw [hr, hx]
    cases x with
    | none => rfl
    | some v => rfl
  · have hm : mask[i]? = none := by
      rw [List.getElem?_eq_none]
      exact Nat.le_of_not_lt h
    have hr : (List.range mask.length)[i]? = none := by
      rw [List.getElem?_eq_none]
      simpa using Nat.le_of_not_lt h
    rw [hm, hr]
    rfl

/-- Summing the present values of a partial map equals summing with default
`0` for the absent ones. -/
theorem sum_filterMap_eq_sum_map (g : ℕ → Option ℚ) (l : List ℕ) :
    (l.filterMap g).sum = (l.map (fun i => (g i).getD 0)).sum := by
  induction l with
  | nil => rfl
  | cons a l ih =>
    cases hg : g a with
    | none => simp [List.filterMap_cons, hg, ih]
    | some v => simp [List.filterMap_cons, hg, ih]

/-- On the path where the SUM reduction materializes (at least one defined
cell inside the AOI), the flooded area is the sum over defined mask cells of
`value * cell area` (undefined cells contributing `0`) divided by `1e6`: the
value half of the area contract does hold of the code. -/
theorem flood_area_defined_path_sum (mask : Raster) (area : ℕ → ℚ) (aoiCells : List ℕ)
    (hne : definedVals (Raster.multiply mask (pixelAreaImg mask.length area))
      aoiCells ≠ []) :
    flood_area mask area aoiCells =
      some ((aoiCells.map (fun i =>
        match mask[i]? with
        | some (some v) => v * area i
        | some none => 0
        | none => 0)).sum / 1000000) := by
  have hkey :
      (definedVals (Raster.multiply mask (pixelAreaImg mask.length area)) aoiCells).sum =
      (aoiCells.map (fun i =>
        match mask[i]? with
        | some (some v) => v * area i
        | some none => 0
        | none => 0)).sum := by
    rw [definedVals, sum_filterMap_eq_sum_map]
    apply congrArg List.sum
    apply List.map_congr_left
    intro i _
    rw [multiply_pixelArea_cell]
    cases hm : mask[i]? with
    | none => rfl
    | some x =>
      cases x with
      | none => rfl
      | some v => rfl
  rw [← hkey]
  unfold flood_area zonalSum
  cases hd : definedVals (Raster.multiply mask (pixelAreaImg mask.length area))
      aoiCells with
  | nil => exact absurd hd hne
  | cons v vs => rfl

/-- C4 (code bug): the `is not None` guard of src/app.py line 138 tests the
lazy reduction handle, which is never Python `None`, so the `else: 0` branch
is dead and an absent SUM reduction crashes the division on line 139 with a
TypeError instead of yielding `0.0`.  Evaluating the faithful model at the
failing input (a degenerate mask, so the reduction is absent): the run ends
in the error outcome (`none`), not in the value `0.0`; a defined reduction
still produces the area value the claim describes. -/
theorem flood_area_empty_reduction_errors :
    flood_area ([] : Raster) (fun _ => 10000) [0, 1] = none ∧
    flood_area ([] : Raster) (fun _ => 10000) [0, 1] ≠ some 0 ∧
    flood_area [some 1] (fun _ => 10000) [0] = some (1 / 100) := by
  refine ⟨rfl, by simp [flood_area, zonalSum, definedVals, Raster.multiply,
    pixelAreaImg, List.filterMap_cons], ?_⟩
  norm_num [flood_area, zonalSum, definedVals, Raster.multiply, pixelAreaImg,
    List.range_succ, opt2, List.filterMap_cons]

/-- Counterexample to C8: observations of different extents (one cell versus
two) are not rejected; the run completes and produces a full report, so no
InputMismatchError aborts the pipeline. -/
theorem mismatched_inputs_produce_report :
    run_pipeline [some (-10)] [some (-8), some 0] (-3/2) (fun _ => 10000) [0]
      [⟨[0], 0, 0⟩] [] [] =
    { area_km2 := some (1/100), b_count := 1, r_count := 0, h_count := 0,
      table := [⟨"Building", 0, 0, 500000⟩], total_loss := 500000 } := by
  unfold run_pipeline
  norm_num [mark_flooded_assets, hospitals, roads, filterBounds, flood_mask,
    Raster.selfMask, Raster.ltImg, Raster.subtract, opt2, zonalMax, definedVals,
    List.filterMap_cons, List.max?, flood_area, zonalSum, Raster.multiply,
    pixelAreaImg, List.range_succ, building_cost, road_cost, hospital_cost]

/-- C8 (amended): the change-detection step performs no extent/resolution
check; the observations are differenced cell-by-cell over their common
extent (the mask length is the minimum of the two lengths) and the run
continues. -/
theorem flood_mask_no_mismatch_guard (pre post : Raster) (t : ℚ) :
    (flood_mask pre post t).length = min pre.length post.length := by
  unfold flood_mask Raster.selfMask Raster.ltImg Raster.subtract
  simp [List.length_zipWith]
